import Mathlib

/-!
Verification of the `agentic-dev-library/crew` runner core.

A shallow embedding of the two backend adapters
(`src/agentic_crew/runners/crewai_runner.py` and
`src/agentic_crew/runners/strands_runner.py`) and proofs about them.

Python dictionaries with a fixed key set are modelled as Lean structures
whose fields are `Option`-valued: `none` models an absent key, matching
`dict.get(key, default)` with `Option.getD`.  Ordered string-keyed
mappings (`agents`, `tasks`, `inputs`) are modelled as association lists
in insertion order.  Exceptions are modelled with `Except String`.
-/

/-- Association-list lookup, modelling `dict[key]` / `key in dict` on a
string-keyed mapping (Python dict keys are unique, so first match is the
match). -/
def alistGet (k : String) : List (String × α) → Option α
  | [] => none
  | (k2, v) :: rest => if k2 = k then some v else alistGet k rest

/-- Python `str(x)` on an optional string, as interpolated into an f-string:
`None` prints as `"None"`. -/
def pyStr : Option String → String
  | none => "None"
  | some s => s

/-- Python slicing `s[:n]` on a string: the first `n` code points. -/
def pyTake (s : String) (n : Nat) : String := String.mk (s.data.take n)

/-- Truthiness of Python `content.strip()`: non-empty after stripping
whitespace from both ends, i.e. some character is not whitespace. -/
def stripTruthy (s : String) : Bool := s.data.any (fun c => !c.isWhitespace)

/-- Configuration of one agent (`AgentConfig`): the keys the adapters read.
`none` models an absent key. -/
structure AgentCfg where
  role : Option String
  goal : Option String
  backstory : Option String
  llm : Option String
  allow_delegation : Option Bool
deriving DecidableEq

/-- Configuration of one task (`TaskConfig`): the keys the adapters read. -/
structure TaskCfg where
  description : Option String
  expected_output : Option String
  agent : Option String
deriving DecidableEq

/-- The universal crew configuration (`CrewConfig`): the keys the adapters
read.  `agents` and `tasks` are insertion-ordered mappings. -/
structure CrewConfig where
  description : Option String
  agents : List (String × AgentCfg)
  tasks : List (String × TaskCfg)
  knowledge_paths : Option (List String)
  process : Option String
  planning : Option Bool
  memory : Option Bool
  verbose : Option Bool
deriving DecidableEq

/-! ## CrewAI adapter: backend-native objects -/

/-- Modelled from the spec: `get_llm` lives on `BaseRunner`
(`agentic_crew.runners.base`, a module not present in the sources).  The
spec calls LLM-client construction an external collaborator whose
interface the core calls but does not own, so it is modelled as an opaque
wrapper around the optional model identifier passed to it. -/
structure LLMHandle where
  model : Option String
deriving DecidableEq

def get_llm (llm : Option String) : LLMHandle := ⟨llm⟩

/-- A backend-native `crewai.Agent`, recording the constructor arguments
`CrewAIRunner.build_agent` passes. -/
structure NAgent where
  role : String
  goal : String
  backstory : String
  llm : LLMHandle
  tools : List Unit
  allow_delegation : Bool
  verbose : Bool
deriving DecidableEq

instance : Inhabited NAgent :=
  ⟨{ role := "", goal := "", backstory := "", llm := ⟨none⟩, tools := [],
     allow_delegation := false, verbose := true }⟩

/-- A backend-native `crewai.Task`, recording the constructor arguments
`CrewAIRunner.build_task` passes. -/
structure NTask where
  description : String
  expected_output : String
  agent : NAgent
deriving DecidableEq

/-- `Process.sequential` / `Process.hierarchical` of the crewai backend. -/
inductive Process where
  | sequential
  | hierarchical
deriving DecidableEq

/-- A backend-native knowledge source
(`TextFileKnowledgeSource(file_paths=[str(file_path)])`). -/
structure KSource where
  file_paths : List String
deriving DecidableEq

/-- A backend-native `crewai.Crew`, recording the constructor arguments
`CrewAIRunner.build_crew` passes. -/
structure NCrew where
  agents : List NAgent
  tasks : List NTask
  process : Process
  planning : Bool
  memory : Bool
  knowledge_sources : Option (List KSource)
  verbose : Bool
deriving DecidableEq

/-- A backend-native object constructed during a build, for tracking
partial builds. -/
inductive BackendObj where
  | agentObj : NAgent → BackendObj
  | taskObj : NTask → BackendObj
deriving DecidableEq

/-! ## CrewAI adapter: builders (`crewai_runner.py`) -/

/-- `CrewAIRunner.__init__`: verifies the backend SDK is importable and
raises `RuntimeError` otherwise.  Importability of the external `crewai`
module is the boolean input. -/
def crewai_runner_init (crewai_importable : Bool) : Except String Unit :=
  if crewai_importable then Except.ok ()
  else Except.error "CrewAI not installed. Install with: pip install crewai[tools]"

/-- `CrewAIRunner.build_agent`: `tools` defaults to `None` at the call in
`build_crew`; `tools or []` maps `none` (and `[]`) to `[]`. -/
def build_agent (agent_config : AgentCfg) : NAgent :=
  { role := agent_config.role.getD "Agent"
    goal := agent_config.goal.getD ""
    backstory := agent_config.backstory.getD ""
    llm := get_llm agent_config.llm
    tools := []
    allow_delegation := agent_config.allow_delegation.getD false
    verbose := true }

/-- `CrewAIRunner.build_task`. -/
def build_task (task_config : TaskCfg) (agent : NAgent) : NTask :=
  { description := task_config.description.getD ""
    expected_output := task_config.expected_output.getD ""
    agent := agent }

/-- The agents loop of `build_crew`: `agents[agent_name] = self.build_agent(agent_cfg)`
for each entry of `agents_config`, in iteration order. -/
def buildAgents (agents_config : List (String × AgentCfg)) : List (String × NAgent) :=
  agents_config.map (fun p => (p.1, build_agent p.2))

/-- The error message `f"Task '{task_name}' has invalid agent: {agent_name}"`. -/
def invalidAgentMsg (task_name : String) (agent_name : Option String) : String :=
  "Task \x27" ++ task_name ++ "\x27 has invalid agent: " ++ pyStr agent_name

/-- The guard `if not agent_name or agent_name not in agents` followed by
`agents[agent_name]`: `none` when `agent` is absent, falsy (empty), or not a
key of the built agents mapping; otherwise the referenced native agent. -/
def lookupTaskAgent (agents : List (String × NAgent)) (task_cfg : TaskCfg) : Option NAgent :=
  match task_cfg.agent with
  | none => none
  | some a => if a = "" then none else alistGet a agents

/-- Same resolution, phrased on the raw agent configurations (the keys of
`agents` are exactly the keys of `agents_config`). -/
def lookupTaskAgentCfg (agents_config : List (String × AgentCfg)) (task_cfg : TaskCfg) :
    Option AgentCfg :=
  match task_cfg.agent with
  | none => none
  | some a => if a = "" then none else alistGet a agents_config

/-- The tasks loop of `build_crew`: walks `tasks_config` appending
`build_task(task_cfg, agents[agent_name])` to the accumulator, stopping
with the `ValueError` message at the first entry whose agent reference is
missing, falsy, or unknown.  Returns the tasks built so far together with
the error, if any. -/
def buildTasksLoop (agents : List (String × NAgent)) (acc : List NTask) :
    List (String × TaskCfg) → List NTask × Option String
  | [] => (acc, none)
  | (task_name, task_cfg) :: rest =>
    match lookupTaskAgent agents task_cfg with
    | none => (acc, some (invalidAgentMsg task_name task_cfg.agent))
    | some ag => buildTasksLoop agents (acc ++ [build_task task_cfg ag]) rest

/-- The filesystem as seen by `_load_knowledge`: directory existence,
`rglob` listing per extension pattern, and `read_text`, whose `none`
result models an `OSError` being raised. -/
structure FileSystem where
  dirExists : String → Bool
  rglob : String → String → List String
  readText : String → Option String

/-- The extension patterns scanned, in order. -/
def knowledgeExts : List String := ["*.md", "*.txt", "*.py", "*.ts"]

/-- The `try: content = file_path.read_text() ... except OSError: pass`
body: appends one source when the read succeeds and the content is
non-blank, otherwise leaves the accumulator unchanged. -/
def scanFile (fs : FileSystem) (sources : List KSource) (file_path : String) : List KSource :=
  match fs.readText file_path with
  | none => sources
  | some content => if stripTruthy content then sources ++ [KSource.mk [file_path]] else sources

/-- One iteration of the outer loop of `_load_knowledge`: skip a missing
path, otherwise scan each extension pattern's `rglob` results in order. -/
def scanDir (fs : FileSystem) (sources : List KSource) (knowledge_path : String) : List KSource :=
  if fs.dirExists knowledge_path then
    knowledgeExts.foldl (fun srcs ext => (fs.rglob knowledge_path ext).foldl (scanFile fs) srcs)
      sources
  else sources

/-- `CrewAIRunner._load_knowledge`. -/
def load_knowledge (fs : FileSystem) (knowledge_paths : List String) : List KSource :=
  knowledge_paths.foldl (scanDir fs) []

/-- The process-selection lines of `build_crew`:
`process_type = crew_config.get("process", "sequential")` then
`Process.hierarchical if process_type == "hierarchical" else Process.sequential`. -/
def selectProcess (process : Option String) : Process :=
  let process_type := process.getD "sequential"
  if process_type = "hierarchical" then Process.hierarchical else Process.sequential

/-- `CrewAIRunner.build_crew`, instrumented with the list of backend-native
objects constructed (in construction order) up to the point the method
returns or raises. -/
def build_crew_trace (fs : FileSystem) (cfg : CrewConfig) :
    List BackendObj × Except String NCrew :=
  let agents := buildAgents cfg.agents
  let agentTrace := agents.map (fun p => BackendObj.agentObj p.2)
  match buildTasksLoop agents [] cfg.tasks with
  | (built, some e) => (agentTrace ++ built.map BackendObj.taskObj, Except.error e)
  | (built, none) =>
    let knowledge_sources := load_knowledge fs (cfg.knowledge_paths.getD [])
    (agentTrace ++ built.map BackendObj.taskObj,
     Except.ok
       { agents := agents.map Prod.snd
         tasks := built
         process := selectProcess cfg.process
         planning := cfg.planning.getD true
         memory := cfg.memory.getD true
         knowledge_sources := if knowledge_sources = [] then none else some knowledge_sources
         verbose := cfg.verbose.getD true })

/-- `CrewAIRunner.build_crew`: the returned crew or raised error. -/
def build_crew (fs : FileSystem) (cfg : CrewConfig) : Except String NCrew :=
  (build_crew_trace fs cfg).2

/-! ## Strands adapter (`strands_runner.py`) -/

/-- `StrandsRunner.__init__`: verifies the backend SDK is importable and
raises `RuntimeError` otherwise. -/
def strands_runner_init (strands_importable : Bool) : Except String Unit :=
  if strands_importable then Except.ok ()
  else Except.error "Strands not installed. Install with: pip install strands-agents"

/-- A backend-native `strands.Agent`, recording the constructor arguments
`StrandsRunner.build_crew` passes. -/
structure SAgent where
  system_prompt : String
  tools : List Unit
deriving DecidableEq

/-- The crew-description section of `_build_system_prompt`: present only
when `crew_config.get("description")` is truthy. -/
def purposeParts (cfg : CrewConfig) : List String :=
  match cfg.description with
  | some d => if d = "" then [] else ["# Your Purpose\n" ++ d]
  | none => []

/-- The per-agent lines of the capabilities section: a `## role` line per
agent (role defaulting to the agent's mapping key), then a goal line when
the goal is non-empty. -/
def agentLines (agents : List (String × AgentCfg)) : List String :=
  agents.flatMap (fun p =>
    let role := p.2.role.getD p.1
    let goal := p.2.goal.getD ""
    ("\n## " ++ role) :: (if goal = "" then [] else ["Goal: " ++ goal]))

/-- The capabilities section: emitted only when the `agents` mapping is
non-empty. -/
def capabilityParts (cfg : CrewConfig) : List String :=
  if cfg.agents = [] then [] else "\n# Your Capabilities" :: agentLines cfg.agents

/-- One task's summary line `f"\n- {task_name}: {desc[:200]}..."`, emitted
only when the description is non-empty. -/
def taskLine (p : String × TaskCfg) : Option String :=
  let desc := p.2.description.getD ""
  if desc = "" then none else some ("\n- " ++ p.1 ++ ": " ++ pyTake desc 200 ++ "...")

/-- The task summary lines, in `tasks` iteration order. -/
def taskLines (tasks : List (String × TaskCfg)) : List String :=
  tasks.filterMap taskLine

/-- The tasks section: its heading is emitted whenever the `tasks` mapping
is non-empty. -/
def taskParts (cfg : CrewConfig) : List String :=
  if cfg.tasks = [] then [] else "\n# Tasks You Can Perform" :: taskLines cfg.tasks

/-- The `parts` list built by `StrandsRunner._build_system_prompt`, in
append order. -/
def promptParts (cfg : CrewConfig) : List String :=
  purposeParts cfg ++ capabilityParts cfg ++ taskParts cfg

/-- `StrandsRunner._build_system_prompt`: `"\n".join(parts)`. -/
def build_system_prompt (cfg : CrewConfig) : String :=
  String.intercalate "\n" (promptParts cfg)

/-- `StrandsRunner._collect_tools`: currently a stub returning `[]`. -/
def collect_tools (_cfg : CrewConfig) : List Unit := []

/-- `StrandsRunner.build_crew`. -/
def strands_build_crew (cfg : CrewConfig) : SAgent :=
  { system_prompt := build_system_prompt cfg
    tools := collect_tools cfg }

/-- Python `str(inputs)` on a string-valued dict: `{'k': 'v', ...}`.
Models `repr` for keys and values without quote or escape characters. -/
def strDict (inputs : List (String × String)) : String :=
  "\x7b" ++
    String.intercalate ", "
      (inputs.map (fun p => "\x27" ++ p.1 ++ "\x27: \x27" ++ p.2 ++ "\x27")) ++
  "\x7d"

/-- The prompt derivation in `StrandsRunner.run`:
`inputs.get("input", inputs.get("task", str(inputs)))`. -/
def extractPrompt (inputs : List (String × String)) : String :=
  match alistGet "input" inputs with
  | some v => v
  | none =>
    match alistGet "task" inputs with
    | some v => v
    | none => strDict inputs

/-! ## State-passing embeddings for the frame property

Each read of the configuration dictionary is modelled as a state
transition returning the value read together with the store; a mutating
access would return an updated store.  The adapters only ever read, so
every transition below returns the store unchanged — the frame theorem
checks that the composed builds do too. -/

/-- `CrewAIRunner.build_crew` with the configuration store threaded
through every dictionary access. -/
def crewai_build_crew_st (fs : FileSystem) (cfg : CrewConfig) :
    Except String NCrew × CrewConfig :=
  let (agents_config, cfg) := (cfg.agents, cfg)
  let agents := buildAgents agents_config
  let (tasks_config, cfg) := (cfg.tasks, cfg)
  match buildTasksLoop agents [] tasks_config with
  | (_, some e) => (Except.error e, cfg)
  | (built, none) =>
    let (kpaths, cfg) := (cfg.knowledge_paths.getD [], cfg)
    let knowledge_sources := load_knowledge fs kpaths
    let (process_type, cfg) := (cfg.process.getD "sequential", cfg)
    let process :=
      if process_type = "hierarchical" then Process.hierarchical else Process.sequential
    let (planning, cfg) := (cfg.planning.getD true, cfg)
    let (memory, cfg) := (cfg.memory.getD true, cfg)
    let (verbose, cfg) := (cfg.verbose.getD true, cfg)
    (Except.ok
       { agents := agents.map Prod.snd
         tasks := built
         process := process
         planning := planning
         memory := memory
         knowledge_sources := if knowledge_sources = [] then none else some knowledge_sources
         verbose := verbose },
     cfg)

/-- `StrandsRunner.build_crew` with the configuration store threaded
through its two reads (`_build_system_prompt` and `_collect_tools`). -/
def strands_build_crew_st (cfg : CrewConfig) : SAgent × CrewConfig :=
  let (system_prompt, cfg) := (build_system_prompt cfg, cfg)
  let (tools, cfg) := (collect_tools cfg, cfg)
  ({ system_prompt := system_prompt, tools := tools }, cfg)

/-! ## Concrete fixtures used by counterexamples and witnesses -/

/-- A filesystem with no readable content (all reads fail, no directory
exists). -/
def fs0 : FileSystem :=
  { dirExists := fun _ => false, rglob := fun _ _ => [], readText := fun _ => none }

/-- An agent configuration with only a role. -/
def agentCfgA : AgentCfg :=
  { role := some "r", goal := none, backstory := none, llm := none, allow_delegation := none }

/-- A task referencing the undeclared agent `"b"`. -/
def taskCfgBad : TaskCfg :=
  { description := some "d", expected_output := none, agent := some "b" }

/-- A task referencing the declared agent `"a"`. -/
def taskCfgGood : TaskCfg :=
  { description := some "d", expected_output := none, agent := some "a" }

/-- A configuration whose single task references an undeclared agent. -/
def cfgC1 : CrewConfig :=
  { description := none, agents := [("a", agentCfgA)], tasks := [("t", taskCfgBad)],
    knowledge_paths := none, process := none, planning := none, memory := none, verbose := none }

/-- A configuration whose single task references the declared agent. -/
def cfgC2 : CrewConfig :=
  { description := none, agents := [("a", agentCfgA)], tasks := [("t", taskCfgGood)],
    knowledge_paths := none, process := none, planning := none, memory := none, verbose := none }

/-- A configuration with one task whose description is absent: the tasks
mapping is non-empty but contributes no summary line. -/
def cfgC5 : CrewConfig :=
  { description := none, agents := [], tasks := [("t", ⟨none, none, some "a"⟩)],
    knowledge_paths := none, process := none, planning := none, memory := none, verbose := none }

/-! ## Claim theorems -/

/-- C4: `StrandsRunner.run` derives the prompt by the fallback chain
`inputs["input"]` → `inputs["task"]` → stringified mapping, selecting
exactly the first present key; `{"task": "X"}` yields `"X"`,
`{"other": "Y"}` yields the stringified mapping and never `"Y"`; the
extraction is a total function. -/
theorem run_input_extraction_chain :
    (∀ inputs v, alistGet "input" inputs = some v → extractPrompt inputs = v) ∧
    (∀ inputs v, alistGet "input" inputs = none → alistGet "task" inputs = some v →
      extractPrompt inputs = v) ∧
    (∀ inputs, alistGet "input" inputs = none → alistGet "task" inputs = none →
      extractPrompt inputs = strDict inputs) ∧
    extractPrompt [("task", "X")] = "X" ∧
    extractPrompt [("other", "Y")] = strDict [("other", "Y")] ∧
    strDict [("other", "Y")] ≠ "Y" := by
  refine ⟨?_, ?_, ?_, rfl, rfl, by decide⟩
  · intro inputs v h
    simp [extractPrompt, h]
  · intro inputs v h1 h2
    simp [extractPrompt, h1, h2]
  · intro inputs h1 h2
    simp [extractPrompt, h1, h2]

/-- Witness for C4 at concrete inputs. -/
theorem run_input_extraction_chain_witness :
    extractPrompt [("other", "Y"), ("task", "T")] = "T" :=
  run_input_extraction_chain.2.1 [("other", "Y"), ("task", "T")] "T" (by decide) (by decide)

/-- C6: process selection is total — `"hierarchical"` maps to the
hierarchical process, every other value, an absent key included, maps to
the sequential process, and no value is rejected (`selectProcess` is a
total function). -/
theorem process_selection_total :
    selectProcess (some "hierarchical") = Process.hierarchical ∧
    selectProcess none = Process.sequential ∧
    ∀ s : String, s ≠ "hierarchical" → selectProcess (some s) = Process.sequential := by
  refine ⟨rfl, rfl, ?_⟩
  intro s hs
  simp [selectProcess, hs]

/-- Witness for C6 at an unrecognized process string. -/
theorem process_selection_total_witness :
    selectProcess (some "parallel") = Process.sequential :=
  process_selection_total.2.2 "parallel" (by decide)

/-- C7: for both adapters, construction fails with the dependency error
exactly when the backend SDK is not importable, and succeeds when it is;
the check lives in `__init__`, so the error surfaces at constructor time
(the `build_crew`/`run` embeddings take no importability input at all). -/
theorem runner_init_dependency_check :
    crewai_runner_init false =
      Except.error "CrewAI not installed. Install with: pip install crewai[tools]" ∧
    crewai_runner_init true = Except.ok () ∧
    strands_runner_init false =
      Except.error "Strands not installed. Install with: pip install strands-agents" ∧
    strands_runner_init true = Except.ok () :=
  ⟨rfl, rfl, rfl, rfl⟩

/-- C10: a task whose `agent` key is absent or empty (falsy) is rejected
with the very same configuration error — same exception, same message
constructor `invalidAgentMsg` — that an unknown agent name produces, and
no native task is built for it (the accumulator is returned unchanged). -/
theorem invalid_agent_uniform_error (agents : List (String × NAgent)) (acc : List NTask)
    (task_name : String) (task_cfg : TaskCfg) (rest : List (String × TaskCfg)) :
    (task_cfg.agent = none ∨ task_cfg.agent = some "" →
      buildTasksLoop agents acc ((task_name, task_cfg) :: rest) =
        (acc, some (invalidAgentMsg task_name task_cfg.agent))) ∧
    (∀ a, task_cfg.agent = some a → alistGet a agents = none →
      buildTasksLoop agents acc ((task_name, task_cfg) :: rest) =
        (acc, some (invalidAgentMsg task_name task_cfg.agent))) := by
  constructor
  · rintro (h | h) <;> simp [buildTasksLoop, lookupTaskAgent, h]
  · intro a ha hget
    by_cases hemp : a = ""
    · simp [buildTasksLoop, lookupTaskAgent, ha, hemp]
    · simp [buildTasksLoop, lookupTaskAgent, ha, hemp, hget]

/-- Witness for C10: a task with an absent `agent` key is rejected with
the unknown-agent error message. -/
theorem invalid_agent_uniform_error_witness :
    buildTasksLoop (buildAgents cfgC1.agents) [] [("t", ⟨none, none, none⟩)] =
      ([], some (invalidAgentMsg "t" none)) :=
  (invalid_agent_uniform_error (buildAgents cfgC1.agents) [] "t" ⟨none, none, none⟩ []).1
    (Or.inl rfl)

/-- Helper: a task entry with a non-empty description contributes its
summary line. -/
theorem taskLine_eq_of_desc (n : String) (t : TaskCfg) (d : String)
    (hd : t.description = some d) (hne : d ≠ "") :
    taskLine (n, t) = some ("\n- " ++ n ++ ": " ++ pyTake d 200 ++ "...") := by
  simp [taskLine, hd, hne]

/-- C3: every task with a non-empty description contributes to the system
prompt a summary line holding the description truncated to at most 200
characters followed by the ellipsis marker, the marker being appended even
when the description already fits in 200 characters. -/
theorem task_summary_truncation (cfg : CrewConfig) (n : String) (t : TaskCfg) (d : String)
    (hmem : (n, t) ∈ cfg.tasks) (hd : t.description = some d) (hne : d ≠ "") :
    ("\n- " ++ n ++ ": " ++ pyTake d 200 ++ "...") ∈ promptParts cfg ∧
    (pyTake d 200).length ≤ 200 ∧
    (d.length ≤ 200 → pyTake d 200 = d) := by
  refine ⟨?_, ?_, ?_⟩
  · have hline : ("\n- " ++ n ++ ": " ++ pyTake d 200 ++ "...") ∈ taskLines cfg.tasks :=
      List.mem_filterMap.mpr ⟨(n, t), hmem, taskLine_eq_of_desc n t d hd hne⟩
    have hnonempty : cfg.tasks ≠ [] := List.ne_nil_of_mem hmem
    have hpart : ("\n- " ++ n ++ ": " ++ pyTake d 200 ++ "...") ∈ taskParts cfg := by
      simp only [taskParts, if_neg hnonempty]
      exact List.mem_cons_of_mem _ hline
    simp only [promptParts, List.mem_append]
    exact Or.inr hpart
  · show (d.data.take 200).length ≤ 200
    rw [List.length_take]
    exact min_le_left _ _
  · intro hlen
    show String.mk (d.data.take 200) = d
    rw [List.take_of_length_le hlen]

/-- Witness for C3: a one-character description is emitted in full and
still followed by the ellipsis marker. -/
theorem task_summary_truncation_witness :
    ("\n- " ++ "t" ++ ": " ++ pyTake "d" 200 ++ "...") ∈ promptParts cfgC2 ∧
    pyTake "d" 200 = "d" := by
  have h := task_summary_truncation cfgC2 "t" taskCfgGood "d" (by decide) rfl (by decide)
  exact ⟨h.1, h.2.2 (by decide)⟩

/-- C5 counterexample: a configuration whose tasks mapping is non-empty
but whose only task has no description yields a system prompt that is
exactly the bare "# Tasks You Can Perform" heading — a heading with no
accompanying content under it. -/
theorem prompt_empty_heading_cex :
    build_system_prompt cfgC5 = "\n# Tasks You Can Perform" ∧
    taskLines cfgC5.tasks = [] ∧ cfgC5.tasks ≠ [] :=
  ⟨rfl, rfl, by decide⟩

/-- C5 amended: the Purpose part never appears without its content (the
description travels inside the same part), the Capabilities heading is
emitted only for a non-empty agents mapping and is then always followed by
at least one capability line, but the Tasks heading is emitted whenever
the tasks mapping is non-empty — even when every task description is
empty, in which case it has no content under it. -/
theorem prompt_sections_amended (cfg : CrewConfig) :
    (∀ p ∈ purposeParts cfg, ∃ d, d ≠ "" ∧ p = "# Your Purpose\n" ++ d) ∧
    (cfg.agents = [] → capabilityParts cfg = []) ∧
    (cfg.agents ≠ [] → ∃ l ls, capabilityParts cfg = "\n# Your Capabilities" :: l :: ls) ∧
    (cfg.tasks = [] → taskParts cfg = []) ∧
    (cfg.tasks ≠ [] → taskParts cfg = "\n# Tasks You Can Perform" :: taskLines cfg.tasks) := by
  refine ⟨?_, ?_, ?_, ?_, ?_⟩
  · intro p hp
    cases hdesc : cfg.description with
    | none => simp [purposeParts, hdesc] at hp
    | some d =>
      by_cases hd : d = ""
      · simp [purposeParts, hdesc, hd] at hp
      · simp [purposeParts, hdesc, hd] at hp
        exact ⟨d, hd, hp⟩
  · intro h; simp [capabilityParts, h]
  · intro h
    match hag : cfg.agents with
    | [] => exact absurd hag h
    | (n, a) :: rest =>
      refine ⟨"\n## " ++ a.role.getD n,
        (if a.goal.getD "" = "" then [] else ["Goal: " ++ a.goal.getD ""]) ++ agentLines rest,
        ?_⟩
      simp [capabilityParts, hag, agentLines]
  · intro h; simp [taskParts, h]
  · intro h; simp [taskParts, h]

/-- Witness for C5's amended claim at a concrete configuration. -/
theorem prompt_sections_amended_witness :
    taskParts cfgC5 = "\n# Tasks You Can Perform" :: taskLines cfgC5.tasks :=
  (prompt_sections_amended cfgC5).2.2.2.2 (by decide)

/-- Helper: looking a key up in the built agents mapping is looking it up
in the configuration and building. -/
theorem alistGet_buildAgents (l : List (String × AgentCfg)) (a : String) :
    alistGet a (buildAgents l) = (alistGet a l).map build_agent := by
  induction l with
  | nil => rfl
  | cons p rest ih =>
    cases p with
    | mk k v =>
      by_cases hk : k = a
      · simp [buildAgents, alistGet, hk]
      · simp only [buildAgents, List.map_cons, alistGet, if_neg hk]
        exact ih

/-- Helper: task-agent resolution against the built agents mapping agrees
with resolution against the raw agent configurations. -/
theorem lookupTaskAgent_buildAgents (l : List (String × AgentCfg)) (tc : TaskCfg) :
    lookupTaskAgent (buildAgents l) tc = (lookupTaskAgentCfg l tc).map build_agent := by
  cases htc : tc.agent with
  | none => simp [lookupTaskAgent, lookupTaskAgentCfg, htc]
  | some a =>
    by_cases ha : a = ""
    · simp [lookupTaskAgent, lookupTaskAgentCfg, htc, ha]
    · simp only [lookupTaskAgent, lookupTaskAgentCfg, htc, if_neg ha]
      exact alistGet_buildAgents l a

/-- Helper: when every task's agent reference resolves, the tasks loop
appends one native task per entry, in order, bound to the looked-up
agent, and reports no error. -/
theorem buildTasksLoop_ok (agents : List (String × NAgent)) :
    ∀ (tcs : List (String × TaskCfg)) (acc : List NTask),
      (∀ p ∈ tcs, (lookupTaskAgent agents p.2).isSome = true) →
      ∃ ts, buildTasksLoop agents acc tcs = (acc ++ ts, none) ∧
        List.Forall₂ (fun (nt : NTask) (p : String × TaskCfg) =>
          ∃ na, lookupTaskAgent agents p.2 = some na ∧ nt = build_task p.2 na) ts tcs := by
  intro tcs
  induction tcs with
  | nil =>
    intro acc _
    exact ⟨[], by simp [buildTasksLoop], List.Forall₂.nil⟩
  | cons q rest ih =>
    intro acc hall
    cases q with
    | mk tn tc =>
      obtain ⟨na, hna⟩ :=
        Option.isSome_iff_exists.mp (hall (tn, tc) (List.mem_cons_self (tn, tc) rest))
      obtain ⟨ts, hts, hf⟩ :=
        ih (acc ++ [build_task tc na]) (fun p hp => hall p (List.mem_cons_of_mem _ hp))
      refine ⟨build_task tc na :: ts, ?_, ?_⟩
      · simp only [buildTasksLoop, hna]
        rw [hts]
        simp
      · exact List.Forall₂.cons ⟨na, hna, rfl⟩ hf

/-- The native tasks built for the longest fully-resolving head of the
task list — the tasks the loop has already appended when it raises. -/
def builtBeforeError (agents : List (String × NAgent)) (tcs : List (String × TaskCfg)) :
    List NTask :=
  (tcs.takeWhile (fun p => (lookupTaskAgent agents p.2).isSome)).map
    (fun p => build_task p.2 ((lookupTaskAgent agents p.2).getD default))

/-- Helper: when some task's agent reference does not resolve, the tasks
loop stops with an error, and the tasks appended before the stop are
exactly those of the longest resolving head of the list. -/
theorem buildTasksLoop_err (agents : List (String × NAgent)) :
    ∀ (tcs : List (String × TaskCfg)) (acc : List NTask),
      (∃ p ∈ tcs, lookupTaskAgent agents p.2 = none) →
      ∃ e, buildTasksLoop agents acc tcs = (acc ++ builtBeforeError agents tcs, some e) := by
  intro tcs
  induction tcs with
  | nil =>
    rintro acc ⟨p, hp, _⟩
    exact absurd hp (List.not_mem_nil p)
  | cons q rest ih =>
    rintro acc ⟨p, hp, hnone⟩
    cases q with
    | mk tn tc =>
      cases hl : lookupTaskAgent agents tc with
      | none =>
        refine ⟨invalidAgentMsg tn tc.agent, ?_⟩
        have hbbe : builtBeforeError agents ((tn, tc) :: rest) = [] := by
          simp [builtBeforeError, List.takeWhile_cons, hl]
        rw [hbbe]
        simp [buildTasksLoop, hl]
      | some na =>
        have hrest : ∃ p ∈ rest, lookupTaskAgent agents p.2 = none := by
          rcases List.mem_cons.mp hp with heq | hmem
          · rw [heq] at hnone
            rw [hnone] at hl
            cases hl
          · exact ⟨p, hmem, hnone⟩
        obtain ⟨e, he⟩ := ih (acc ++ [build_task tc na]) hrest
        refine ⟨e, ?_⟩
        have hbbe : builtBeforeError agents ((tn, tc) :: rest) =
            build_task tc na :: builtBeforeError agents rest := by
          simp [builtBeforeError, List.takeWhile_cons, hl]
        simp only [buildTasksLoop, hl]
        rw [he, hbbe]
        simp

/-- C1 counterexample: with one declared agent `"a"` and one task
referencing the unknown agent `"b"`, `build_crew` does raise the
configuration error, but a backend-native agent has already been
constructed when it raises — the trace of constructed backend objects is
non-empty, refuting "constructs no backend-native object before
raising". -/
theorem build_crew_agents_before_error_cex :
    build_crew_trace fs0 cfgC1 =
      ([BackendObj.agentObj (build_agent agentCfgA)],
       Except.error "Task \x27t\x27 has invalid agent: b") ∧
    (build_crew_trace fs0 cfgC1).1 ≠ [] :=
  ⟨rfl, by decide⟩

/-- C1 amended: when some task's agent reference does not resolve,
`build_crew` raises the configuration error, but only after constructing
one backend-native agent per declared agent (the agents loop runs first)
and one native task per task entry preceding the first invalid one. -/
theorem build_crew_invalid_agent_error (fs : FileSystem) (cfg : CrewConfig)
    (h : ∃ p ∈ cfg.tasks, lookupTaskAgentCfg cfg.agents p.2 = none) :
    ∃ e, build_crew_trace fs cfg =
      ((buildAgents cfg.agents).map (fun q => BackendObj.agentObj q.2) ++
        (builtBeforeError (buildAgents cfg.agents) cfg.tasks).map BackendObj.taskObj,
       Except.error e) := by
  obtain ⟨p, hp, hnone⟩ := h
  have hnone2 : lookupTaskAgent (buildAgents cfg.agents) p.2 = none := by
    rw [lookupTaskAgent_buildAgents, hnone]
    rfl
  obtain ⟨e, he⟩ := buildTasksLoop_err (buildAgents cfg.agents) cfg.tasks [] ⟨p, hp, hnone2⟩
  refine ⟨e, ?_⟩
  simp only [build_crew_trace]
  rw [he]
  simp

/-- Witness for C1's amended claim at the concrete configuration. -/
theorem build_crew_invalid_agent_error_witness :
    ∃ e, build_crew_trace fs0 cfgC1 =
      ((buildAgents cfgC1.agents).map (fun q => BackendObj.agentObj q.2) ++
        (builtBeforeError (buildAgents cfgC1.agents) cfgC1.tasks).map BackendObj.taskObj,
       Except.error e) :=
  build_crew_invalid_agent_error fs0 cfgC1 ⟨("t", taskCfgBad), by decide, by decide⟩

/-- C2: when every task's agent reference resolves to a declared agent,
`build_crew` succeeds and the returned crew holds exactly one native task
per entry of the `tasks` mapping, in insertion order, each bound to the
native agent built from the configuration its `agent` name refers to. -/
theorem build_crew_valid_tasks_in_order (fs : FileSystem) (cfg : CrewConfig)
    (h : ∀ p ∈ cfg.tasks, (lookupTaskAgentCfg cfg.agents p.2).isSome = true) :
    ∃ crew, build_crew fs cfg = Except.ok crew ∧
      List.Forall₂ (fun (nt : NTask) (p : String × TaskCfg) =>
        ∃ acfg, lookupTaskAgentCfg cfg.agents p.2 = some acfg ∧
          nt = build_task p.2 (build_agent acfg)) crew.tasks cfg.tasks := by
  have h2 : ∀ p ∈ cfg.tasks, (lookupTaskAgent (buildAgents cfg.agents) p.2).isSome = true := by
    intro p hp
    rw [lookupTaskAgent_buildAgents]
    cases hc : lookupTaskAgentCfg cfg.agents p.2 with
    | none =>
      have hcontra := h p hp
      rw [hc] at hcontra
      simp at hcontra
    | some acfg => simp
  obtain ⟨ts, hts, hf⟩ := buildTasksLoop_ok (buildAgents cfg.agents) cfg.tasks [] h2
  refine ⟨{ agents := (buildAgents cfg.agents).map Prod.snd
            tasks := ts
            process := selectProcess cfg.process
            planning := cfg.planning.getD true
            memory := cfg.memory.getD true
            knowledge_sources :=
              if load_knowledge fs (cfg.knowledge_paths.getD []) = [] then none
              else some (load_knowledge fs (cfg.knowledge_paths.getD []))
            verbose := cfg.verbose.getD true }, ?_, ?_⟩
  · simp only [build_crew, build_crew_trace]
    rw [hts]
    simp
  · show List.Forall₂ _ ts cfg.tasks
    refine List.Forall₂.imp ?_ hf
    rintro nt p ⟨na, hna, hnt⟩
    rw [lookupTaskAgent_buildAgents] at hna
    cases hc : lookupTaskAgentCfg cfg.agents p.2 with
    | none =>
      rw [hc] at hna
      cases hna
    | some acfg =>
      rw [hc] at hna
      have hba : build_agent acfg = na := by simpa using hna
      exact ⟨acfg, rfl, by rw [hnt, ← hba]⟩

/-- Witness for C2 at the concrete valid configuration. -/
theorem build_crew_valid_tasks_in_order_witness :
    ∃ crew, build_crew fs0 cfgC2 = Except.ok crew ∧
      List.Forall₂ (fun (nt : NTask) (p : String × TaskCfg) =>
        ∃ acfg, lookupTaskAgentCfg cfgC2.agents p.2 = some acfg ∧
          nt = build_task p.2 (build_agent acfg)) crew.tasks cfgC2.tasks :=
  build_crew_valid_tasks_in_order fs0 cfgC2 (by decide)

/-! ## Knowledge-scan characterization (spec side for C8) -/

/-- A file qualifies as a knowledge source when its read succeeds (no
`OSError`) and its content is not blank. -/
def qualifies (fs : FileSystem) (file_path : String) : Bool :=
  match fs.readText file_path with
  | none => false
  | some content => stripTruthy content

/-- The qualifying files of one knowledge path, in scan order: none for a
missing path, otherwise the qualifying `rglob` hits of each extension
pattern in order. -/
def dirQualifying (fs : FileSystem) (knowledge_path : String) : List String :=
  if fs.dirExists knowledge_path then
    knowledgeExts.flatMap (fun ext => (fs.rglob knowledge_path ext).filter (qualifies fs))
  else []

/-- The qualifying files of a knowledge-path list, in scan order. -/
def qualifyingFiles (fs : FileSystem) (knowledge_paths : List String) : List String :=
  knowledge_paths.flatMap (dirQualifying fs)

/-- Helper: one file scan appends at most one source and never fails. -/
theorem scanFile_eq (fs : FileSystem) (sources : List KSource) (fp : String) :
    scanFile fs sources fp =
      sources ++ (if qualifies fs fp then [KSource.mk [fp]] else []) := by
  cases hr : fs.readText fp with
  | none => simp [scanFile, qualifies, hr]
  | some content =>
    by_cases hc : stripTruthy content
    · simp [scanFile, qualifies, hr, hc]
    · simp [scanFile, qualifies, hr, hc]

/-- Helper: folding the file scan over a file list appends exactly the
qualifying files' sources, in order. -/
theorem foldl_scanFile (fs : FileSystem) :
    ∀ (files : List String) (sources : List KSource),
      files.foldl (scanFile fs) sources =
        sources ++ (files.filter (qualifies fs)).map (fun fp => KSource.mk [fp]) := by
  intro files
  induction files with
  | nil => intro sources; simp
  | cons fp rest ih =>
    intro sources
    simp only [List.foldl_cons, scanFile_eq]
    rw [ih]
    by_cases hq : qualifies fs fp
    · simp [List.filter_cons, hq]
    · simp [List.filter_cons, hq]

/-- Helper: folding the per-extension scan over the extension list
appends exactly the qualifying files of all patterns, in order. -/
theorem foldl_exts (fs : FileSystem) (p : String) :
    ∀ (exts : List String) (sources : List KSource),
      exts.foldl (fun srcs ext => (fs.rglob p ext).foldl (scanFile fs) srcs) sources =
        sources ++
          (exts.flatMap (fun ext => (fs.rglob p ext).filter (qualifies fs))).map
            (fun fp => KSource.mk [fp]) := by
  intro exts
  induction exts with
  | nil => intro sources; simp
  | cons e rest ih =>
    intro sources
    simp only [List.foldl_cons]
    rw [foldl_scanFile, ih, List.flatMap_cons, List.map_append, List.append_assoc]

/-- Helper: one directory scan appends exactly the directory's qualifying
sources. -/
theorem scanDir_eq (fs : FileSystem) (sources : List KSource) (p : String) :
    scanDir fs sources p =
      sources ++ (dirQualifying fs p).map (fun fp => KSource.mk [fp]) := by
  by_cases hex : fs.dirExists p
  · simp only [scanDir, dirQualifying, if_pos hex]
    exact foldl_exts fs p knowledgeExts sources
  · simp [scanDir, dirQualifying, hex]

/-- Helper: folding the directory scan over the path list appends exactly
the qualifying sources of all paths, in order. -/
theorem foldl_scanDir (fs : FileSystem) :
    ∀ (paths : List String) (sources : List KSource),
      paths.foldl (scanDir fs) sources =
        sources ++ (qualifyingFiles fs paths).map (fun fp => KSource.mk [fp]) := by
  intro paths
  induction paths with
  | nil => intro sources; simp [qualifyingFiles]
  | cons p rest ih =>
    intro sources
    simp only [List.foldl_cons, scanDir_eq]
    rw [ih]
    simp [qualifyingFiles, List.flatMap_cons, List.map_append, List.append_assoc]

/-- C8: `_load_knowledge` is a total function of the filesystem — it
returns exactly one source per qualifying file (readable, non-blank), in
scan order.  Missing paths, unreadable files (the `OSError` branch,
modelled by `readText = none`) and blank files contribute nothing and do
not disturb the rest of the scan, and a path list with zero qualifying
files — the empty list included — yields zero sources rather than a
failure. -/
theorem load_knowledge_skips_nonqualifying (fs : FileSystem) (knowledge_paths : List String) :
    load_knowledge fs knowledge_paths =
      (qualifyingFiles fs knowledge_paths).map (fun fp => KSource.mk [fp]) ∧
    load_knowledge fs [] = [] := by
  constructor
  · rw [load_knowledge, foldl_scanDir]
    simp
  · rfl

/-! ## Frame property (C9) -/

/-- C9: both adapters' `build_crew`, run over the state-passing embedding
in which every configuration access is a state transition, return the
configuration store exactly as they received it: no step mutates the
caller's configuration, its nested agent, task and knowledge-path values
included. -/
theorem build_crew_config_unchanged (fs : FileSystem) (cfg : CrewConfig) :
    (crewai_build_crew_st fs cfg).2 = cfg ∧ (strands_build_crew_st cfg).2 = cfg := by
  constructor
  · simp only [crewai_build_crew_st]
    split <;> rfl
  · rfl
